import Mathlib

/-!
Shallow embedding of `src/src/main.cpp` (a PTP dynamic-POSIX-clock demo).

The C program keeps one piece of mutable state: the function-local static
`clkid` inside `GetPtpTime`.  All interaction with the operating system
(`open`, `clock_gettime`, `std::chrono::system_clock::now`) is modelled by
oracle values supplied in environment records, so every run of the program
is a pure function of those oracles.  Machine integers (`int`,
`clockid_t`, `unsigned int`) are 32 bits wide; we model their values as
`Int` and make the 32-bit wrap-around explicit with `% 4294967296`.
-/

namespace Ptp

/-- CLOCK_INVALID sentinel, `#define CLOCK_INVALID -1` in main.cpp. -/
def CLOCK_INVALID : Int := -1

/-- Bit pattern (as a natural number `< 2^32`) of the 32-bit two's-complement
representation of an integer value. -/
def toPattern (i : Int) : Nat := (i % 4294967296).toNat

/-- Value of a 32-bit pattern read back as a signed (two's-complement) int,
i.e. the effect of casting an `unsigned int` to `clockid_t`/`int`. -/
def toSigned32 (n : Nat) : Int :=
  if n % 4294967296 < 2147483648 then ((n % 4294967296 : Nat) : Int)
  else ((n % 4294967296 : Nat) : Int) - 4294967296

/-- FD_TO_CLOCKID macro of main.cpp:
`((clockid_t)((((unsigned int)~fd) << 3) | 3))`.
The complement of the 32-bit pattern `p` is `4294967295 - p`; the shift is
performed on `unsigned int`, hence the reduction `% 4294967296`; the final
cast to `clockid_t` reinterprets the pattern as a signed value. -/
def FD_TO_CLOCKID (fd : Int) : Int :=
  toSigned32 ((((4294967295 - toPattern fd) <<< 3) % 4294967296) ||| 3)

/-- Inverse direction of the handle-to-identifier map, mirroring the kernel
convention `CLOCKID_TO_FD(clk) = ~((clk) >> 3)` (arithmetic shift on the
32-bit signed value, then bitwise complement).  For a positive divisor,
`Int` division (`ediv`) is floor division, which is exactly the arithmetic
right shift. -/
def CLOCKID_TO_FD (clk : Int) : Int :=
  toSigned32 (4294967295 - toPattern (clk / 8))

/-- Timestamp, `struct timespec`: seconds and nanoseconds since the epoch. -/
structure Timespec where
  tv_sec : Int
  tv_nsec : Int
deriving DecidableEq

/-- All-zero timestamp, the result of `memset(ts, 0, sizeof(struct timespec))`. -/
def zeroTimespec : Timespec := ⟨0, 0⟩

/-- Oracle inputs for one call to `GetPtpTime`: what `open(DEV_PATH, O_RDWR)`
would return if it were called (a file descriptor `≥ 0` or a negative error),
and what `clock_gettime(clkid, ts)` would do if it were called (`some t`:
success writing `t`; `none`: failure, the buffer is not written). -/
structure CallEnv where
  openRes : Int
  gettimeRes : Option Timespec
deriving DecidableEq

/-- Observable outcome of one call to `GetPtpTime`: the value of the static
`clkid` after the call, the returned clock id, how many times `open` was
called during the call, and the final contents of the caller's `timespec`
buffer (`none` when the caller passed `nullptr`). -/
structure CallOut where
  st : Int
  ret : Int
  opens : Nat
  buf : Option Timespec
deriving DecidableEq

/-- Lines 57–65 of main.cpp: the read half of `GetPtpTime`, entered with the
(now initialized) `clkid`.  If `ts` is non-null the buffer is zeroed and
`clock_gettime(clkid, ts)` is issued; on its failure the function returns
`CLOCK_INVALID` (the zeroed buffer stays zeroed); otherwise `clkid` is
returned. -/
def ptpRead (clkid : Int) (opens : Nat) (gettimeRes : Option Timespec)
    (ts : Option Timespec) : CallOut :=
  match ts with
  | none => ⟨clkid, clkid, opens, none⟩
  | some _ =>
    match gettimeRes with
    | none => ⟨clkid, CLOCK_INVALID, opens, some zeroTimespec⟩
    | some t => ⟨clkid, clkid, opens, some t⟩

/-- GetPtpTime of main.cpp (lines 44–66) as a state transformer on the static
`clkid`.  `st` is the value of the static before the call; `ts` the caller's
buffer (`none` for `nullptr`).  If the identifier is not cached yet, `open`
is attempted: on failure the function returns `CLOCK_INVALID` at once,
leaving the static and the buffer untouched; on success the identifier is
derived with `FD_TO_CLOCKID` and cached.  Then the read half runs. -/
def GetPtpTime (st : Int) (env : CallEnv) (ts : Option Timespec) : CallOut :=
  if st = CLOCK_INVALID then
    if env.openRes < 0 then ⟨st, CLOCK_INVALID, 1, ts⟩
    else ptpRead (FD_TO_CLOCKID env.openRes) 1 env.gettimeRes ts
  else ptpRead st 0 env.gettimeRes ts

/-- Acquisition block of `GetPtpTime` (lines 46–55), the spec's
`AcquireClockIdentifier`: given the cached state and the value `open` would
return, yields (new cached state, acquired identifier — `CLOCK_INVALID` on
failure —, number of `open` calls performed). -/
def acquireClockId (st : Int) (openRes : Int) : Int × Int × Nat :=
  if st = CLOCK_INVALID then
    if openRes < 0 then (st, CLOCK_INVALID, 1)
    else (FD_TO_CLOCKID openRes, FD_TO_CLOCKID openRes, 1)
  else (st, st, 0)

/-- Run a sequence of `GetPtpTime` calls from a given value of the static
`clkid`, threading the static through and collecting each call's outcome. -/
def processFrom (st : Int) : List (CallEnv × Option Timespec) → List CallOut
  | [] => []
  | c :: cs =>
    let o := GetPtpTime st c.1 c.2
    o :: processFrom o.st cs

/-- Run of a whole process: the static starts at `CLOCK_INVALID`. -/
def process (cs : List (CallEnv × Option Timespec)) : List CallOut :=
  processFrom CLOCK_INVALID cs

/-- Total number of `open(2)` calls over a list of call outcomes. -/
def totalOpens (outs : List CallOut) : Nat :=
  (outs.map (fun o => o.opens)).sum

/-- Oracle inputs for a run of `main`: the `open` result, the
`clock_gettime(clkid, ·)` outcome on the hardware clock, the timestamp
`clock_gettime(CLOCK_REALTIME, ·)` writes, and the raw nanosecond count of
`std::chrono::system_clock::now().time_since_epoch()`. -/
structure MainEnv where
  openRes : Int
  ptpGettimeRes : Option Timespec
  realtimeTs : Timespec
  chronoNowNs : Int
deriving DecidableEq

/-- Observable outcome of `main`: the process exit code and the three
printed timestamp blocks (`none` when the corresponding block is not
printed because the process exited early). -/
structure MainOut where
  exitCode : Int
  ptpBlock : Option Timespec
  realBlock : Option Timespec
  sysBlock : Option Timespec
deriving DecidableEq

/-- Function main of main.cpp (lines 81–107).  `init` is the (indeterminate)
initial content of the stack buffer `ts`.  C++ `duration_cast` and `%` on
integers truncate toward zero, hence `Int.tdiv` / `Int.tmod` for the third
block. -/
def main (init : Timespec) (env : MainEnv) : MainOut :=
  let out := GetPtpTime CLOCK_INVALID ⟨env.openRes, env.ptpGettimeRes⟩ (some init)
  if out.ret = CLOCK_INVALID then ⟨1, none, none, none⟩
  else
    ⟨0, out.buf, some env.realtimeTs,
      some ⟨Int.tdiv env.chronoNowNs 1000000000, Int.tmod env.chronoNowNs 1000000000⟩⟩

/-- Well-formed timestamp: nanoseconds in [0, 999999999]. -/
def ValidTs (t : Timespec) : Prop := 0 ≤ t.tv_nsec ∧ t.tv_nsec ≤ 999999999

instance (t : Timespec) : Decidable (ValidTs t) :=
  inferInstanceAs (Decidable (_ ∧ _))

/-! ### Helper lemmas -/

/-- Oring 3 into a multiple of 8 just adds 3 (the low three bits are free). -/
theorem mul8_lor_three (k : Nat) : (8 * k) ||| 3 = 8 * k + 3 := by
  have h8 : 8 * k = Nat.bit false (Nat.bit false (Nat.bit false k)) := by
    simp [Nat.bit_val]; ring
  have h3 : (3 : Nat) = Nat.bit true (Nat.bit true 0) := rfl
  rw [h8, h3, Nat.lor_bit, Nat.lor_bit, Nat.or_zero]
  simp [Nat.bit_val]
  ring

/-- Reading back a 32-bit pattern of the form `8k + 3` as a signed value
gives an integer congruent to 3 modulo 8. -/
theorem toSigned32_lor_three_emod (m : Nat) (hlt : m < 4294967296)
    (h8 : m % 8 = 0) : toSigned32 (m ||| 3) % 8 = 3 := by
  obtain ⟨k, hk⟩ : ∃ k, m = 8 * k := ⟨m / 8, by omega⟩
  subst hk
  rw [mul8_lor_three]
  unfold toSigned32
  split <;> omega

/-- Every derived clock identifier is congruent to 3 modulo 8. -/
theorem fd_to_clockid_emod_eight (fd : Int) : FD_TO_CLOCKID fd % 8 = 3 := by
  unfold FD_TO_CLOCKID
  apply toSigned32_lor_three_emod
  · exact Nat.mod_lt _ (by norm_num)
  · have hs : (4294967295 - toPattern fd) <<< 3 = (4294967295 - toPattern fd) * 8 := by
      rw [Nat.shiftLeft_eq]
    rw [hs]
    omega

/-- Every derived clock identifier differs from the `CLOCK_INVALID` sentinel. -/
theorem fd_to_clockid_ne_invalid (fd : Int) : FD_TO_CLOCKID fd ≠ CLOCK_INVALID := by
  have h := fd_to_clockid_emod_eight fd
  unfold CLOCK_INVALID
  omega

/-- Closed form of the derivation on small non-negative handles:
for `0 ≤ fd < 2^28`, `FD_TO_CLOCKID fd = -(8 fd + 5)`. -/
theorem fd_to_clockid_closed_form (fd : Int) (h0 : 0 ≤ fd) (h1 : fd < 268435456) :
    FD_TO_CLOCKID fd = -(8 * fd + 5) := by
  unfold FD_TO_CLOCKID toSigned32 toPattern
  have hs : (4294967295 - (fd % 4294967296).toNat) <<< 3
      = (4294967295 - (fd % 4294967296).toNat) * 8 := by
    rw [Nat.shiftLeft_eq]
  rw [hs]
  have hmod : ((4294967295 - (fd % 4294967296).toNat) * 8) % 4294967296
      = 8 * (536870911 - (fd % 4294967296).toNat) := by omega
  rw [hmod, mul8_lor_three]
  split <;> omega

/-- Once the static `clkid` is cached, a call neither changes it nor opens
the device, whatever the oracle does (including a failing read). -/
theorem getPtpTime_cached (st : Int) (h : st ≠ CLOCK_INVALID) (env : CallEnv)
    (ts : Option Timespec) :
    (GetPtpTime st env ts).st = st ∧ (GetPtpTime st env ts).opens = 0 := by
  unfold GetPtpTime
  rw [if_neg h]
  cases ts with
  | none => simp [ptpRead]
  | some t => cases hg : env.gettimeRes <;> simp [ptpRead, hg]

/-- A first call from the uninitialized state with a succeeding `open`
caches `FD_TO_CLOCKID` of the returned descriptor and opens exactly once. -/
theorem getPtpTime_first_success (env : CallEnv) (ts : Option Timespec)
    (h : 0 ≤ env.openRes) :
    (GetPtpTime CLOCK_INVALID env ts).st = FD_TO_CLOCKID env.openRes ∧
    (GetPtpTime CLOCK_INVALID env ts).opens = 1 := by
  unfold GetPtpTime
  rw [if_pos rfl, if_neg (by omega)]
  cases ts with
  | none => simp [ptpRead]
  | some t => cases hg : env.gettimeRes <;> simp [ptpRead, hg]

/-- Trace invariant: from a cached state, every later call reports the same
cached identifier and performs no open. -/
theorem processFrom_cached (st : Int) (h : st ≠ CLOCK_INVALID)
    (cs : List (CallEnv × Option Timespec)) :
    (processFrom st cs).map (fun o => (o.st, o.opens))
      = cs.map (fun _ => (st, 0)) := by
  induction cs with
  | nil => rfl
  | cons c cs ih =>
    have hc := getPtpTime_cached st h c.1 c.2
    simp only [processFrom, List.map_cons]
    rw [hc.1, hc.2, ih]

/-- Trace invariant: from a cached state, no call in the rest of the process
ever calls `open`. -/
theorem processFrom_cached_opens (st : Int) (h : st ≠ CLOCK_INVALID)
    (cs : List (CallEnv × Option Timespec)) :
    totalOpens (processFrom st cs) = 0 := by
  induction cs with
  | nil => rfl
  | cons c cs ih =>
    have hc := getPtpTime_cached st h c.1 c.2
    simp only [processFrom, totalOpens, List.map_cons, List.sum_cons] at ih ⊢
    rw [hc.1, hc.2, ih]

/-! ### Claims -/

/-- C3: in a process run whose first call acquires the identifier
successfully (the `open` returns a non-negative descriptor), every later
call keeps the identical cached identifier and performs no further `open`
(the total open count over the run is exactly 1), and the acquisition
operation at the cached state returns the cached identifier with no I/O. -/
theorem claim_C3 (env₀ : CallEnv) (ts₀ : Option Timespec)
    (rest : List (CallEnv × Option Timespec)) (h : 0 ≤ env₀.openRes) :
    (process ((env₀, ts₀) :: rest)).map (fun o => (o.st, o.opens))
      = (FD_TO_CLOCKID env₀.openRes, 1)
          :: rest.map (fun _ => (FD_TO_CLOCKID env₀.openRes, 0))
    ∧ totalOpens (process ((env₀, ts₀) :: rest)) = 1
    ∧ ∀ r : Int, acquireClockId (FD_TO_CLOCKID env₀.openRes) r
        = (FD_TO_CLOCKID env₀.openRes, FD_TO_CLOCKID env₀.openRes, 0) := by
  have hne := fd_to_clockid_ne_invalid env₀.openRes
  have h1 := getPtpTime_first_success env₀ ts₀ h
  have hstne : (GetPtpTime CLOCK_INVALID env₀ ts₀).st ≠ CLOCK_INVALID := by
    rw [h1.1]; exact hne
  refine ⟨?_, ?_, ?_⟩
  · simp only [process, processFrom, List.map_cons, h1.1, h1.2,
      processFrom_cached _ hne rest]
  · simp only [process, processFrom, totalOpens, List.map_cons, List.sum_cons]
    rw [h1.2]
    have h2 := processFrom_cached_opens _ hstne rest
    simp only [totalOpens] at h2
    rw [h2]
  · intro r
    unfold acquireClockId
    rw [if_neg hne]

/-- C3 witness at a concrete run: first open returns descriptor 3, a second
call follows; the run opens once and the acquisition at the cached
identifier is a no-op returning it. -/
theorem claim_C3_witness :
    0 ≤ (3 : Int)
    ∧ totalOpens (process [(⟨3, none⟩, none), (⟨5, some ⟨1, 2⟩⟩, some ⟨0, 0⟩)]) = 1
    ∧ acquireClockId (FD_TO_CLOCKID 3) 7 = (FD_TO_CLOCKID 3, FD_TO_CLOCKID 3, 0) := by
  refine ⟨by decide, ?_, ?_⟩
  · exact (claim_C3 ⟨3, none⟩ none [(⟨5, some ⟨1, 2⟩⟩, some ⟨0, 0⟩)] (by decide)).2.1
  · exact (claim_C3 ⟨3, none⟩ none [(⟨5, some ⟨1, 2⟩⟩, some ⟨0, 0⟩)] (by decide)).2.2 7

/-- C4: after a call to the acquisition operation from the uninitialized
state, the identifier is cached if and only if the `open` succeeded; on
failure the cached state is unchanged (still the sentinel) and a subsequent
call performs the `open` again. -/
theorem claim_C4 (r : Int) :
    ((acquireClockId CLOCK_INVALID r).1 ≠ CLOCK_INVALID ↔ 0 ≤ r)
    ∧ (r < 0 → acquireClockId CLOCK_INVALID r = (CLOCK_INVALID, CLOCK_INVALID, 1)
        ∧ ∀ r' : Int, (acquireClockId (acquireClockId CLOCK_INVALID r).1 r').2.2 = 1) := by
  have hfail : r < 0 → acquireClockId CLOCK_INVALID r = (CLOCK_INVALID, CLOCK_INVALID, 1) := by
    intro hr
    unfold acquireClockId
    rw [if_pos rfl, if_pos hr]
  have hsucc : ¬r < 0 → acquireClockId CLOCK_INVALID r = (FD_TO_CLOCKID r, FD_TO_CLOCKID r, 1) := by
    intro hr
    unfold acquireClockId
    rw [if_pos rfl, if_neg hr]
  constructor
  · by_cases hr : r < 0
    · rw [hfail hr]
      show CLOCK_INVALID ≠ CLOCK_INVALID ↔ 0 ≤ r
      constructor
      · intro hc; exact absurd rfl hc
      · intro hc; exact absurd hc (by omega)
    · rw [hsucc hr]
      show FD_TO_CLOCKID r ≠ CLOCK_INVALID ↔ 0 ≤ r
      constructor
      · intro _; omega
      · intro _; exact fd_to_clockid_ne_invalid r
  · intro hr
    refine ⟨hfail hr, ?_⟩
    intro r'
    rw [hfail hr]
    show (acquireClockId CLOCK_INVALID r').2.2 = 1
    unfold acquireClockId
    rw [if_pos rfl]
    by_cases hr' : r' < 0
    · rw [if_pos hr']
    · rw [if_neg hr']

/-- C4 witness: a failing open (result -1) leaves the state uninitialized,
the iff instantiates, and the next call opens again. -/
theorem claim_C4_witness :
    ((acquireClockId CLOCK_INVALID (-1)).1 ≠ CLOCK_INVALID ↔ 0 ≤ (-1 : Int))
    ∧ acquireClockId CLOCK_INVALID (-1) = (CLOCK_INVALID, CLOCK_INVALID, 1)
    ∧ (acquireClockId (acquireClockId CLOCK_INVALID (-1)).1 2).2.2 = 1 :=
  ⟨(claim_C4 (-1)).1, ((claim_C4 (-1)).2 (by decide)).1, ((claim_C4 (-1)).2 (by decide)).2 2⟩

/-- C5: once the identifier is cached (state differs from the sentinel), no
later call — including calls whose time read fails — changes the cached
state or re-derives it: every call in the rest of the trace reports the
same state and zero opens. -/
theorem claim_C5 (st : Int) (h : st ≠ CLOCK_INVALID)
    (cs : List (CallEnv × Option Timespec)) :
    (processFrom st cs).map (fun o => (o.st, o.opens))
      = cs.map (fun _ => (st, 0)) :=
  processFrom_cached st h cs

/-- C5 witness: a cached identifier -29 survives a call with a failing read
and a call with a succeeding read, with zero opens. -/
theorem claim_C5_witness :
    ((-29 : Int) ≠ CLOCK_INVALID)
    ∧ (processFrom (-29) [(⟨-1, none⟩, some ⟨1, 2⟩), (⟨4, some ⟨9, 9⟩⟩, none)]).map
        (fun o => (o.st, o.opens))
      = [((-29 : Int), (0 : Nat)), (-29, 0)] := by
  refine ⟨by decide, ?_⟩
  have h := claim_C5 (-29) (by decide) [(⟨-1, none⟩, some ⟨1, 2⟩), (⟨4, some ⟨9, 9⟩⟩, none)]
  simpa using h

/-- C6: the identifier derivation is a pure function of the handle value
(equal handles give equal identifiers), and on the 32-bit signed
representation it maps handle 3 to identifier -29. -/
theorem claim_C6 (a b : Int) (hab : a = b) :
    FD_TO_CLOCKID a = FD_TO_CLOCKID b ∧ FD_TO_CLOCKID 3 = -29 := by
  subst hab
  exact ⟨rfl, by decide⟩

/-- C6 witness at handle 3. -/
theorem claim_C6_witness :
    FD_TO_CLOCKID 3 = FD_TO_CLOCKID 3 ∧ FD_TO_CLOCKID 3 = -29 :=
  claim_C6 3 3 rfl

/-- C7 counterexample: the transformation is not invertible over all handle
values — handles 0 and 2^29 collide (both map to -5), so no function can
recover the handle from the identifier for every handle. -/
theorem claim_C7_counterexample :
    FD_TO_CLOCKID 0 = FD_TO_CLOCKID 536870912
    ∧ (0 : Int) ≠ 536870912
    ∧ ¬∃ g : Int → Int, ∀ fd : Int, g (FD_TO_CLOCKID fd) = fd := by
  refine ⟨by decide, by decide, ?_⟩
  rintro ⟨g, hg⟩
  have h0 := hg 0
  have h1 := hg 536870912
  rw [show FD_TO_CLOCKID 536870912 = FD_TO_CLOCKID 0 from by decide, h0] at h1
  exact absurd h1 (by decide)

/-- C7 (amended): on handle values in [0, 2^28) — which covers every real
file descriptor — the round trip through the kernel inverse
`CLOCKID_TO_FD (clk) = ~(clk >> 3)` is the identity. -/
theorem claim_C7 (fd : Int) (h0 : 0 ≤ fd) (h1 : fd < 268435456) :
    CLOCKID_TO_FD (FD_TO_CLOCKID fd) = fd := by
  rw [fd_to_clockid_closed_form fd h0 h1]
  unfold CLOCKID_TO_FD toSigned32 toPattern
  have hdiv : (-(8 * fd + 5)) / 8 = -(fd + 1) := by omega
  rw [hdiv]
  split <;> omega

/-- C7 witness: the round trip at handle 3. -/
theorem claim_C7_witness :
    0 ≤ (3 : Int) ∧ (3 : Int) < 268435456 ∧ CLOCKID_TO_FD (FD_TO_CLOCKID 3) = 3 :=
  ⟨by decide, by decide, claim_C7 3 (by decide) (by decide)⟩

/-- C8: when the hardware read is actually issued (`ts` non-null and the
read half is reached) and fails, the caller's buffer holds the all-zero
timestamp written by the `memset`, never the previous contents. -/
theorem claim_C8 (st : Int) (env : CallEnv) (init : Timespec)
    (hq : st ≠ CLOCK_INVALID ∨ 0 ≤ env.openRes)
    (hf : env.gettimeRes = none) :
    (GetPtpTime st env (some init)).buf = some zeroTimespec := by
  unfold GetPtpTime
  by_cases hst : st = CLOCK_INVALID
  · rw [if_pos hst]
    have ho : ¬env.openRes < 0 := by
      rcases hq with hcase | hcase
      · exact absurd hst hcase
      · omega
    rw [if_neg ho]
    simp [ptpRead, hf]
  · rw [if_neg hst]
    simp [ptpRead, hf]

/-- C8 witness: a failing read on the cached identifier -29 over a buffer
previously holding ⟨5, 6⟩ leaves the all-zero timestamp. -/
theorem claim_C8_witness :
    ((-29 : Int) ≠ CLOCK_INVALID ∨ 0 ≤ (7 : Int))
    ∧ (⟨7, none⟩ : CallEnv).gettimeRes = none
    ∧ (GetPtpTime (-29) ⟨7, none⟩ (some ⟨5, 6⟩)).buf = some zeroTimespec :=
  ⟨Or.inl (by decide), rfl, claim_C8 (-29) ⟨7, none⟩ ⟨5, 6⟩ (Or.inl (by decide)) rfl⟩

/-- Evaluation of main when the device open fails. -/
theorem main_open_fail (init : Timespec) (env : MainEnv) (h : env.openRes < 0) :
    main init env = ⟨1, none, none, none⟩ := by
  simp [main, GetPtpTime, h]

/-- Evaluation of main when the open succeeds but the hardware read fails. -/
theorem main_read_fail (init : Timespec) (env : MainEnv) (h : ¬env.openRes < 0)
    (h2 : env.ptpGettimeRes = none) :
    main init env = ⟨1, none, none, none⟩ := by
  simp [main, GetPtpTime, ptpRead, h, h2]

/-- Evaluation of main when open and hardware read both succeed. -/
theorem main_success (init : Timespec) (env : MainEnv) (t : Timespec)
    (h : ¬env.openRes < 0) (h2 : env.ptpGettimeRes = some t) :
    main init env
      = ⟨0, some t, some env.realtimeTs,
          some ⟨Int.tdiv env.chronoNowNs 1000000000,
                Int.tmod env.chronoNowNs 1000000000⟩⟩ := by
  simp [main, GetPtpTime, ptpRead, h, h2, fd_to_clockid_ne_invalid env.openRes]

/-- C1 counterexample: a run whose open succeeds (descriptor 3) but whose
hardware time read fails still exits with code 1, so open failure is not
the only condition producing exit code 1. -/
theorem claim_C1_counterexample :
    0 ≤ (3 : Int)
    ∧ (main zeroTimespec ⟨3, none, ⟨0, 0⟩, 0⟩).exitCode = 1 :=
  ⟨by decide, by decide⟩

/-- C1 (amended): the exit code is 1 exactly when the open failed or the
hardware time read failed, and 0 otherwise. -/
theorem claim_C1 (init : Timespec) (env : MainEnv) :
    ((main init env).exitCode = 1 ↔ (env.openRes < 0 ∨ env.ptpGettimeRes = none))
    ∧ ((main init env).exitCode = 0 ↔ ¬(env.openRes < 0 ∨ env.ptpGettimeRes = none)) := by
  by_cases ho : env.openRes < 0
  · rw [main_open_fail init env ho]
    simp [ho]
  · cases hg : env.ptpGettimeRes with
    | none =>
      rw [main_read_fail init env ho hg]
      simp [ho, hg]
    | some t =>
      rw [main_success init env t ho hg]
      simp [ho, hg]

/-- C2 counterexample: when the hardware-clock path fails (open returns
-1), the wall-clock reads are not performed and their blocks are not
printed — the whole run is exit 1 with no output blocks. -/
theorem claim_C2_counterexample :
    ((-1 : Int) < 0)
    ∧ main zeroTimespec ⟨-1, none, ⟨5, 6⟩, 7⟩ = ⟨1, none, none, none⟩ :=
  ⟨by decide, by decide⟩

/-- C2 (amended): the wall-clock blocks are printed exactly in the runs
where the hardware path (open and hardware read) succeeds; when it fails
the process exits with code 1 printing no wall-clock block. -/
theorem claim_C2 (init : Timespec) (env : MainEnv) :
    (((main init env).realBlock = none ∧ (main init env).sysBlock = none
        ∧ (main init env).exitCode = 1)
      ↔ (env.openRes < 0 ∨ env.ptpGettimeRes = none))
    ∧ (((main init env).realBlock ≠ none ∧ (main init env).sysBlock ≠ none
        ∧ (main init env).exitCode = 0)
      ↔ ¬(env.openRes < 0 ∨ env.ptpGettimeRes = none)) := by
  by_cases ho : env.openRes < 0
  · rw [main_open_fail init env ho]
    simp [ho]
  · cases hg : env.ptpGettimeRes with
    | none =>
      rw [main_read_fail init env ho hg]
      simp [ho, hg]
    | some t =>
      rw [main_success init env t ho hg]
      simp [ho, hg]

/-- C9: under the OS contracts (a successful `clock_gettime` writes a
timestamp with nanoseconds in [0, 999999999]; the epoch nanosecond count is
non-negative), every timestamp block the program prints has its
nanoseconds in [0, 999999999]; the third block's nanoseconds are the
total count modulo 10^9. -/
theorem claim_C9 (init : Timespec) (env : MainEnv)
    (h1 : ∀ t, env.ptpGettimeRes = some t → ValidTs t)
    (h2 : ValidTs env.realtimeTs)
    (h3 : 0 ≤ env.chronoNowNs) :
    (∀ t, (main init env).ptpBlock = some t → ValidTs t)
    ∧ (∀ t, (main init env).realBlock = some t → ValidTs t)
    ∧ (∀ t, (main init env).sysBlock = some t → ValidTs t) := by
  by_cases ho : env.openRes < 0
  · rw [main_open_fail init env ho]
    simp
  · cases hg : env.ptpGettimeRes with
    | none =>
      rw [main_read_fail init env ho hg]
      simp
    | some t0 =>
      rw [main_success init env t0 ho hg]
      refine ⟨?_, ?_, ?_⟩
      · intro t ht
        injection ht with hh
        rw [← hh]
        exact h1 t0 hg
      · intro t ht
        injection ht with hh
        rw [← hh]
        exact h2
      · intro t ht
        injection ht with hh
        rw [← hh]
        have hnn := Int.tmod_nonneg (1000000000 : Int) h3
        have hlt := Int.tmod_lt_of_pos env.chronoNowNs
          (show (0 : Int) < 1000000000 by norm_num)
        refine ⟨hnn, ?_⟩
        show Int.tmod env.chronoNowNs 1000000000 ≤ 999999999
        omega

/-- C9 witness at a concrete run: count 1234567890 ns yields the third
block ⟨1 s, 234567890 ns⟩, whose nanoseconds are in range. -/
theorem claim_C9_witness :
    (main zeroTimespec ⟨3, some ⟨1, 2⟩, ⟨4, 5⟩, 1234567890⟩).sysBlock
      = some ⟨1, 234567890⟩
    ∧ ValidTs ⟨1, 234567890⟩ := by
  refine ⟨by decide, ?_⟩
  have h := claim_C9 zeroTimespec ⟨3, some ⟨1, 2⟩, ⟨4, 5⟩, 1234567890⟩
    (fun t ht => by injection ht with hh; rw [← hh]; exact ⟨by norm_num, by norm_num⟩)
    ⟨by norm_num, by norm_num⟩ (by norm_num)
  exact h.2.2 ⟨1, 234567890⟩ (by decide)

/-- C10: every derived identifier is congruent to 3 modulo 8 (tag pattern
011), hence never equals the sentinel -1 (which is 7 mod 8), so the
cache-emptiness test against the sentinel is unambiguous. -/
theorem claim_C10 (fd : Int) :
    FD_TO_CLOCKID fd % 8 = 3
    ∧ FD_TO_CLOCKID fd ≠ CLOCK_INVALID
    ∧ ¬(CLOCK_INVALID % 8 = 3) :=
  ⟨fd_to_clockid_emod_eight fd, fd_to_clockid_ne_invalid fd, by decide⟩

end Ptp
